import Mathlib

set_option maxHeartbeats 1000000

/-!
Shallow embedding of `tools/idf_py_actions/tools.py` (esp-idf build
orchestration core): the CMake cache store (`_strip_quotes`,
`_parse_cmakecache`, `_new_cmakecache_entries`), the target resolver
(`_guess_or_check_idf_target`), the configure-step failure cleanup in
`ensure_build_directory`, the failure branch of `RunTool.__call__`,
the hint engine (`generate_hints`) and `fit_text_in_terminal`.
Strings are modelled as `List Char`; Python `Optional` as `Option`;
a Python `dict` built by line-by-line overwrite as an append list whose
lookup takes the last binding.
-/

/-- Python ASCII whitespace, as used by `str.strip` / `str.rstrip`. -/
def pyIsSpace (c : Char) : Bool :=
  c == ' ' || c == '\t' || c == '\n' || c == '\r' || c == '\x0b' || c == '\x0c'

/-- Python `str.rstrip()`: drop trailing whitespace. -/
def rstripChars (s : List Char) : List Char :=
  (s.reverse.dropWhile pyIsSpace).reverse

/-- Python `str.lstrip()`: drop leading whitespace. -/
def lstripChars (s : List Char) : List Char :=
  s.dropWhile pyIsSpace

/-- Python `str.strip()`: drop whitespace on both sides. -/
def pyStrip (s : List Char) : List Char :=
  rstripChars (lstripChars s)

/-- Text effectively matched by an `^...$`-anchored Python pattern whose body
cannot cross a newline (`.` never matches `\n`; `$` also matches just before a
single trailing newline): the whole string when it has no newline, the string
minus its trailing newline when that is the only newline, otherwise no match. -/
def regexBody (v : List Char) : Option (List Char) :=
  if '\n' ∈ v then
    if v.getLast? = some '\n' ∧ '\n' ∉ v.dropLast then some v.dropLast else none
  else some v

/-- Value wrapped in a matching pair of the quote character `q`
(the shape matched by `^q(.*)q$`). -/
def quoteWrapped (q : Char) (s : List Char) : Prop :=
  2 ≤ s.length ∧ s.head? = some q ∧ s.getLast? = some q

instance (q : Char) (s : List Char) : Decidable (quoteWrapped q s) := by
  unfold quoteWrapped; infer_instance

/-- tools.py `_strip_quotes`: match `^"(.*)"$|^'(.*)'$|^(.*)$` against the
value, take the first non-`None` group and `rstrip` it; `None` when the
pattern does not match (which happens exactly when the value has an inner
newline). The regex alternatives are tried in order: double quotes, single
quotes, bare value. -/
def stripQuotesBody (body : List Char) : List Char :=
  if quoteWrapped '"' body then rstripChars body.tail.dropLast
  else if quoteWrapped '\'' body then rstripChars body.tail.dropLast
  else rstripChars body

/-- Full `_strip_quotes`: `None` exactly when the anchored pattern cannot
match (inner newline), else the selected group, rstripped. -/
def _strip_quotes (v : List Char) : Option (List Char) :=
  (regexBody v).map stripQuotesBody

/-- Split a text into lines the way Python file iteration does: each line
keeps its trailing newline; a last line without a newline is kept as is. -/
def splitLinesAux : List Char → List Char → List (List Char)
  | [], acc => if acc.isEmpty then [] else [acc.reverse]
  | c :: rest, acc =>
    if c = '\n' then (acc.reverse ++ ['\n']) :: splitLinesAux rest []
    else splitLinesAux rest (c :: acc)

/-- Lines of a file content, keeping line ends (Python `for line in f`). -/
def splitLinesKeepEnds (s : List Char) : List (List Char) :=
  splitLinesAux s []

/-- Characters allowed in the name part of a cache line: the class `[^#/:=]`. -/
def nameCharOk (c : Char) : Bool :=
  !(c == '#' || c == '/' || c == ':' || c == '=')

/-- Characters allowed in the type part of a cache line: the class `[^:=]`. -/
def typeCharOk (c : Char) : Bool :=
  !(c == ':' || c == '=')

/-- Match of the tail `(.*)\n$` of the cache-line pattern against the rest of
the line after `NAME:TYPE=`: the group is the rest minus a trailing newline
(`$` may also sit before one further trailing newline); no match when the
rest does not end with a newline. -/
def lineValueTail (rest : List Char) : Option (List Char) :=
  if rest.getLast? = some '\n' then
    if '\n' ∉ rest.dropLast then some rest.dropLast
    else if rest.dropLast.getLast? = some '\n' ∧ '\n' ∉ rest.dropLast.dropLast then
      some rest.dropLast.dropLast
    else none
  else none

/-- One line of `_parse_cmakecache`: `re.match(r'^([^#/:=]+):([^:=]+)=(.*)\n$', line)`,
returning the name and value groups on a match. Both character classes are
negated and exclude their own terminator, so the greedy `+` groups are exactly
the maximal runs of allowed characters, and the first excluded character must
be the expected `:` respectively `=`. -/
def cacheLineEntry (line : List Char) : Option (List Char × List Char) :=
  match line.dropWhile nameCharOk with
  | ':' :: rest2 =>
    if (line.takeWhile nameCharOk).isEmpty then none
    else
      match rest2.dropWhile typeCharOk with
      | '=' :: rest4 =>
        if (rest2.takeWhile typeCharOk).isEmpty then none
        else
          match lineValueTail rest4 with
          | some v => some (line.takeWhile nameCharOk, v)
          | none => none
      | _ => none
  | _ => none

/-- tools.py `_parse_cmakecache`: fold the matching lines of the file content
into a name/value snapshot; later bindings for a key overwrite earlier ones
(dict assignment), modelled by appending and looking up the last binding. -/
def _parse_cmakecache (content : List Char) : List (List Char × List Char) :=
  (splitLinesKeepEnds content).foldl
    (fun acc line =>
      match cacheLineEntry line with
      | some kv => acc ++ [kv]
      | none => acc) []

/-- Dictionary lookup on the parsed snapshot: the last binding wins. -/
def cacheGet (cache : List (List Char × List Char)) (k : List Char) : Option (List Char) :=
  (cache.reverse.find? (fun kv => kv.1 == k)).map (fun kv => kv.2)

/-- Python `entry.split('=', 1)` unpacked to two names: key before the first
`=`, value after it; no result (a `ValueError`) when the entry has no `=`. -/
def splitOnceEq (e : List Char) : Option (List Char × List Char) :=
  if '=' ∈ e then
    some (e.takeWhile (fun c => !(c == '=')), (e.dropWhile (fun c => !(c == '='))).tail)
  else none

/-- Check of one proposed entry in `_new_cmakecache_entries`: split at the
first `=` (no result models the `ValueError` when there is none), then
`current_value is None or _strip_quotes(value) != current_value`. -/
def entryCheck (cache : List (List Char × List Char)) (e : List Char) : Option Bool :=
  match splitOnceEq e with
  | none => none
  | some (k, v) =>
    match cacheGet cache k with
    | none => some true
    | some cur => if _strip_quotes v ≠ some cur then some true else some false

/-- Loop of `_new_cmakecache_entries`: walk the proposed entries, return
`true` on the first differing entry (short circuit), `false` when all pass,
and no result when an inspected entry has no `=`. -/
def checkEntries (cache : List (List Char × List Char)) : List (List Char) → Option Bool
  | [] => some false
  | e :: rest =>
    match entryCheck cache e with
    | none => none
    | some true => some true
    | some false => checkEntries cache rest

/-- tools.py `_new_cmakecache_entries`: `true` when the cache file does not
exist; otherwise the entry check against the parsed snapshot (an empty
proposed list immediately yields `false`). -/
def _new_cmakecache_entries (cacheExists : Bool) (content : List Char)
    (entries : List (List Char)) : Option Bool :=
  if cacheExists = false then some true
  else checkEntries (_parse_cmakecache content) entries

/-- Claim C1 comparison on the spec side: a proposed entry is in agreement
with the snapshot when its key is present and the stored value equals the
de-quoted proposed value. Note that only the proposed side is de-quoted;
the stored value is compared exactly as parsed. -/
def entryOk (cache : List (List Char × List Char)) (e : List Char) : Prop :=
  ∃ k v cur, splitOnceEq e = some (k, v) ∧ cacheGet cache k = some cur ∧
    _strip_quotes v = some cur

/-- Python truthiness of an optional string: `None` and the empty string are
falsy, any non-empty string is truthy. -/
def pyTruthyOpt : Option (List Char) → Bool
  | none => false
  | some s => !s.isEmpty

/-- The cache key consulted by the target resolver. -/
def idfTargetKey : List Char := "IDF_TARGET".data

/-- Result of one call of `_guess_or_check_idf_target`: either a normal
return carrying the (possibly extended) proposed cache-entry list, or exactly
one of the three `FatalError` conflicts, carrying the strings interpolated
into its message. -/
inductive TargetOutcome where
  | ok (entries : List (List Char))
  | conflictEnvSdkconfig (tConf tEnv : List Char)
  | conflictEnvCache (tEnv tCache : List Char)
  | conflictCacheSdkconfig (tConf tCache : List Char)
deriving DecidableEq

/-- tools.py `_guess_or_check_idf_target`: inputs are the target read from
`sdkconfig`, from `sdkconfig.defaults`, from the `IDF_TARGET` environment
variable, the parsed cache snapshot, and the current proposed cache-entry
list (`args.define_cache_entry`). The branch structure mirrors the Python
`if not cache and not idf_target_from_env / elif idf_target_from_env / elif` chain,
including Python truthiness of the empty string. -/
def _guess_or_check_idf_target (fromSdkconfig fromSdkconfigDefaults fromEnv : Option (List Char))
    (cache : List (List Char × List Char)) (entries : List (List Char)) : TargetOutcome :=
  if cache = [] ∧ pyTruthyOpt fromEnv = false then
    let guessed := if pyTruthyOpt fromSdkconfig = true then fromSdkconfig else fromSdkconfigDefaults
    if pyTruthyOpt guessed = true then
      .ok (entries ++ [("IDF_TARGET=".data) ++ guessed.getD []])
    else .ok entries
  else if pyTruthyOpt fromEnv = true then
    if pyTruthyOpt fromSdkconfig = true ∧ fromSdkconfig ≠ fromEnv then
      .conflictEnvSdkconfig (fromSdkconfig.getD []) (fromEnv.getD [])
    else if pyTruthyOpt (cacheGet cache idfTargetKey) = true ∧
        cacheGet cache idfTargetKey ≠ fromEnv then
      .conflictEnvCache (fromEnv.getD []) ((cacheGet cache idfTargetKey).getD [])
    else .ok entries
  else if pyTruthyOpt (cacheGet cache idfTargetKey) = true ∧
      pyTruthyOpt fromSdkconfig = true ∧ cacheGet cache idfTargetKey ≠ fromSdkconfig then
    .conflictCacheSdkconfig (fromSdkconfig.getD []) ((cacheGet cache idfTargetKey).getD [])
  else .ok entries

/-- Documented rule "environment vs project configuration": the environment
target is set, a target is inferable from `sdkconfig`, and they differ. -/
def envSdkconfigConflict (fromSdkconfig fromEnv : Option (List Char)) : Prop :=
  pyTruthyOpt fromEnv = true ∧ pyTruthyOpt fromSdkconfig = true ∧ fromSdkconfig ≠ fromEnv

/-- Documented rule "environment vs persisted cache": the environment target
is set, the cache records a target, and they differ. -/
def envCacheConflict (fromEnv fromCache : Option (List Char)) : Prop :=
  pyTruthyOpt fromEnv = true ∧ pyTruthyOpt fromCache = true ∧ fromCache ≠ fromEnv

/-- Documented rule "persisted cache vs project configuration": the cache
records a target, a target is inferable from `sdkconfig`, and they differ. -/
def cacheSdkconfigConflict (fromSdkconfig fromCache : Option (List Char)) : Prop :=
  pyTruthyOpt fromCache = true ∧ pyTruthyOpt fromSdkconfig = true ∧ fromCache ≠ fromSdkconfig

/-- Configure step of `ensure_build_directory` (the `try`/`except` around the
cmake `RunTool` call): the cmake run is abstracted by whether it raises and
by whether the cache file exists after it ran. The `except` clause removes
the cache file when it exists and re-raises, so on the raising path the cache
file never survives. Returns (cache file exists afterwards, exception propagated). -/
def configure_step (runRaises : Bool) (cacheExistsAfterRun : Bool) : Bool × Bool :=
  if runRaises = true then (false, true) else (cacheExistsAfterRun, false)

/-- Outcome of the tail of `RunTool.__call__` after the subprocess finished:
a normal return (zero exit), a normal return through the custom error
handler (which receives the exit code and the two log paths), a raised
`FatalError` carrying both log paths after the hint scan, or a raised
`FatalError` with the exit code only. -/
inductive RunToolOutcome where
  | returned
  | customHandled (returncode : Int) (stderrLog stdoutLog : Option (List Char))
  | fatalWithLogs (returncode : Int) (stderrLog stdoutLog : List Char)
  | fatalPlain (returncode : Int)
deriving DecidableEq

/-- tools.py `RunTool.__call__` from the `process.returncode` test on: the
log paths are `None` exactly when capture was disabled (`hints=False`). -/
def run_tool_finish (returncode : Int) (hasCustomHandler : Bool)
    (stderrLog stdoutLog : Option (List Char)) : RunToolOutcome :=
  if returncode = 0 then .returned
  else if hasCustomHandler = true then .customHandled returncode stderrLog stdoutLog
  else
    match stderrLog, stdoutLog with
    | some e, some o => .fatalWithLogs returncode e o
    | some _, none => .fatalPlain returncode
    | none, _ => .fatalPlain returncode

/-- Whether the outcome is a raised `FatalError`. -/
def outcomeRaises : RunToolOutcome → Bool
  | .fatalWithLogs _ _ _ => true
  | .fatalPlain _ => true
  | _ => false

/-- Whether the outcome ran the hint scan (`generate_hints` over both logs). -/
def outcomeScansHints : RunToolOutcome → Bool
  | .fatalWithLogs _ _ _ => true
  | _ => false

/-- tools.py `fit_text_in_terminal`, with the terminal width passed in
(`os.get_terminal_size` is ambient state in the source): at most 3 columns
gives only dots, a too-long text is middle-elided with `...`, otherwise the
text is returned unchanged. -/
def fit_text_in_terminal (out : List Char) (terminalWidth : Nat) : List Char :=
  if terminalWidth ≤ 3 then List.replicate terminalWidth '.'
  else if terminalWidth ≤ out.length then
    out.take ((terminalWidth - 3) / 2) ++ ('.' :: '.' :: ['.']) ++
      out.drop (out.length - (terminalWidth - 3) / 2)
  else out

/-- One entry of a rule's `variables` list: the fill-ins for the regex
template and the fill-ins for the message template. -/
structure VarSet where
  re_variables : List (List Char)
  hint_variables : List (List Char)
deriving DecidableEq

/-- One rule of the hint database (`hints.yml`): the required regex template,
the optional message template (`hint`), the optional `variables` list and the
`match_to_output` flag. Templates are modelled with positional `{}`
placeholders, the form the database uses. -/
structure HintRule where
  re : List Char
  hint : Option (List Char)
  variables_list : Option (List VarSet)
  match_to_output : Bool
deriving DecidableEq

/-- Python `template.format(*args)` for positional `{}` placeholders: each
`{}` consumes the next argument, other characters are copied, surplus
arguments are ignored; no result models the `IndexError` raised when the
placeholders outnumber the arguments. -/
def pyFormat : List Char → List (List Char) → Option (List Char)
  | [], _ => some []
  | '{' :: '}' :: rest, a :: args => (pyFormat rest args).map (fun r => a ++ r)
  | '{' :: '}' :: _, [] => none
  | c :: rest, args => (pyFormat rest args).map (fun r => c :: r)

/-- Abort conditions of one `generate_hints` run: `exitMalformed` models the
`red_print` + `sys.exit(1)` taken when a rule's message template cannot be
formatted for a matched variable set, `formatIndex` the uncaught `IndexError`
from a template with too many placeholders, `keyErrMissingHint` the
re-raised `KeyError` when a matching rule has no `hint` entry. -/
inductive HintErr where
  | exitMalformed
  | formatIndex
  | keyErrMissingHint
deriving DecidableEq

/-- Python truthiness of the optional `variables` list: `None` and `[]` are
falsy. -/
def pyTruthyVars : Option (List VarSet) → Bool
  | none => false
  | some l => !l.isEmpty

/-- Flattening of one input file in `generate_hints`:
`' '.join(line.strip() for line in file if line.strip())`. -/
def flattenOutput (lines : List (List Char)) : List Char :=
  List.intercalate [' '] ((lines.map pyStrip).filter (fun l => !l.isEmpty))

/-- The message prefix `' '.join(['HINT:', message])` prepends. -/
def hintPrefix : List Char := "HINT: ".data

/-- The `variables` loop of `generate_hints` for one rule on one flattened
output: for each variable set, format the regex template with the regex
fill-ins and search; on a match, format the message template with the
message fill-ins and queue it. The regex search itself is an abstract
parameter returning the matched groups. -/
def varSetOne (search : List Char → List Char → Option (List (List Char)))
    (output reTemplate : List Char) (hintTemplate : Option (List Char))
    (vs : VarSet) : Except HintErr (Option (List Char)) :=
  match pyFormat reTemplate vs.re_variables with
  | none => Except.error HintErr.formatIndex
  | some regex =>
    if (search regex output).isSome then
      match hintTemplate with
      | none => Except.error HintErr.exitMalformed
      | some ht =>
        match pyFormat ht vs.hint_variables with
        | none => Except.error HintErr.formatIndex
        | some msg => Except.ok (some msg)
    else Except.ok none

/-- The whole `variables` loop: the queued messages in variable-set order. -/
def varSetHints (search : List Char → List Char → Option (List (List Char)))
    (output reTemplate : List Char) (hintTemplate : Option (List Char)) :
    List VarSet → Except HintErr (List (List Char))
  | [] => Except.ok []
  | vs :: rest =>
    match varSetOne search output reTemplate hintTemplate vs with
    | Except.error e => Except.error e
    | Except.ok none => varSetHints search output reTemplate hintTemplate rest
    | Except.ok (some msg) =>
      (varSetHints search output reTemplate hintTemplate rest).map (fun l => msg :: l)

/-- Comma join of the matched groups used when `match_to_output` is set. -/
def joinCommaGroups (groups : List (List Char)) : List Char :=
  List.intercalate (", ".data) groups

/-- One rule of `generate_hints` on one flattened output: the `variables`
branch yields one prefixed message per matching variable set; a rule without
(truthy) `variables` searches its raw regex and yields at most one message,
formatted with the joined groups when `match_to_output` is set and with the
empty string otherwise. -/
def ruleHints (search : List Char → List Char → Option (List (List Char)))
    (output : List Char) (rule : HintRule) : Except HintErr (List (List Char)) :=
  if pyTruthyVars rule.variables_list = true then
    match varSetHints search output rule.re rule.hint (rule.variables_list.getD []) with
    | Except.error e => Except.error e
    | Except.ok hintList => Except.ok (hintList.map (fun m => hintPrefix ++ m))
  else
    match search rule.re output with
    | none => Except.ok []
    | some groups =>
      match rule.hint with
      | none => Except.error HintErr.keyErrMissingHint
      | some ht =>
        match pyFormat ht [if rule.match_to_output = true then joinCommaGroups groups else []] with
        | none => Except.error HintErr.formatIndex
        | some m => Except.ok [hintPrefix ++ m]

/-- All rules of the database on one flattened output, in database order. -/
def rulesHints (search : List Char → List Char → Option (List (List Char)))
    (output : List Char) : List HintRule → Except HintErr (List (List Char))
  | [] => Except.ok []
  | r :: rs =>
    match ruleHints search output r with
    | Except.error e => Except.error e
    | Except.ok l => (rulesHints search output rs).map (fun l2 => l ++ l2)

/-- tools.py `generate_hints`: outer loop over the input files (each given as
its list of lines), inner loop over the rules; the hints of the whole run in
yield order, or the abort condition that ended the run. -/
def generate_hints (search : List Char → List Char → Option (List (List Char)))
    (rules : List HintRule) : List (List (List Char)) → Except HintErr (List (List Char))
  | [] => Except.ok []
  | f :: fs =>
    match rulesHints search (flattenOutput f) rules with
    | Except.error e => Except.error e
    | Except.ok l => (generate_hints search rules fs).map (fun l2 => l ++ l2)

/-- Whether a variable set matches: its formatted regex succeeds and is found
in the output. -/
def vsMatches (search : List Char → List Char → Option (List (List Char)))
    (output reTemplate : List Char) (vs : VarSet) : Bool :=
  match pyFormat reTemplate vs.re_variables with
  | some regex => (search regex output).isSome
  | none => false

/-- Number of matching variable sets of one rule on one output. -/
def varSetMatchCount (search : List Char → List Char → Option (List (List Char)))
    (output reTemplate : List Char) (vsets : List VarSet) : Nat :=
  (vsets.filter (vsMatches search output reTemplate)).length

/-- Number of matching rule/variable-set pairs contributed by one rule on one
output; a rule without (truthy) variable sets counts one on an unconditional
match of its raw regex and zero otherwise. -/
def ruleMatchCount (search : List Char → List Char → Option (List (List Char)))
    (output : List Char) (rule : HintRule) : Nat :=
  if pyTruthyVars rule.variables_list = true then
    varSetMatchCount search output rule.re (rule.variables_list.getD [])
  else if (search rule.re output).isSome then 1 else 0

/-- Total number of matching rule/variable-set pairs over all input files:
the per-file counts summed over the files. -/
def totalMatchCount (search : List Char → List Char → Option (List (List Char)))
    (rules : List HintRule) (files : List (List (List Char))) : Nat :=
  (files.map (fun f => ((rules.map (ruleMatchCount search (flattenOutput f))).sum))).sum

/-- Substring test on character lists. -/
def containsSub (pat : List Char) : List Char → Bool
  | [] => pat.isEmpty
  | c :: rest => pat.isPrefixOf (c :: rest) || containsSub pat rest

/-- Model of `re.compile(p).search(text)` for a pattern `p` without regex
metacharacters: a plain substring search, matching with no groups. The
patterns of the C6 scenario contain only letters, spaces, a backtick and an
apostrophe, none of which is special in a regex. -/
def reSearchLit (pat text : List Char) : Option (List (List Char)) :=
  if containsSub pat text = true then some [] else none

/-- Variable set of the C6 scenario rule: regex fill-in `foo`, message
fill-in `foo symbol`. -/
def c6vs : VarSet :=
  { re_variables := ["foo".data], hint_variables := ["foo symbol".data] }

/-- The C6 scenario rule: regex template ``undefined reference to `\x7b\x7d'``,
message template `Check linkage of \x7b\x7d`, one variable set. -/
def c6rule : HintRule :=
  { re := "undefined reference to `\x7b\x7d'".data
  , hint := some ("Check linkage of \x7b\x7d".data)
  , variables_list := some [c6vs]
  , match_to_output := false }

/-- The formatted regex of the C6 rule: note the backtick before `foo` and
the apostrophe after it, copied from the GNU linker message shape. -/
def c6pattern : List Char := "undefined reference to `foo'".data

/-- The single hint the C6 scenario is expected to yield. -/
def c6message : List Char := "HINT: Check linkage of foo symbol".data

/-- A log line containing `undefined reference to 'foo'` with an apostrophe
on both sides of `foo`, exactly as the claim words the scenario. -/
def c6apostropheLog : List Char := "undefined reference to 'foo'".data

/-- C5 witness rule: two variable sets over the template `ref \x7b\x7d`. -/
def w5rule : HintRule :=
  { re := "ref \x7b\x7d".data
  , hint := some ("fix \x7b\x7d".data)
  , variables_list := some
      [ { re_variables := ["a".data], hint_variables := ["A".data] }
      , { re_variables := ["b".data], hint_variables := ["B".data] } ]
  , match_to_output := false }

/-- C5 witness input files: the first matches both variable sets, the second
only the second one. -/
def w5files : List (List (List Char)) :=
  [["ref a ref b".data], ["ref b".data]]

deriving instance DecidableEq for Except

/-! Helper lemmas. -/

theorem dropWhile_dropWhile (p : Char → Bool) (l : List Char) :
    (l.dropWhile p).dropWhile p = l.dropWhile p := by
  induction l with
  | nil => rfl
  | cons a l ih =>
    by_cases h : p a = true
    · simp [List.dropWhile_cons, h, ih]
    · simp [List.dropWhile_cons, h]

theorem rstripChars_idem (s : List Char) : rstripChars (rstripChars s) = rstripChars s := by
  simp [rstripChars, dropWhile_dropWhile]

theorem mem_rstripChars {a : Char} {s : List Char} (h : a ∈ rstripChars s) : a ∈ s := by
  unfold rstripChars at h
  rw [List.mem_reverse] at h
  have := (List.dropWhile_sublist (l := s.reverse) (p := pyIsSpace)).subset h
  simpa using this

theorem regexBody_no_newline {v body : List Char} (h : regexBody v = some body) :
    '\n' ∉ body := by
  unfold regexBody at h
  by_cases hv : '\n' ∈ v
  · rw [if_pos hv] at h
    by_cases hc : v.getLast? = some '\n' ∧ '\n' ∉ v.dropLast
    · rw [if_pos hc] at h
      cases h
      exact hc.2
    · rw [if_neg hc] at h
      cases h
  · rw [if_neg hv] at h
    cases h
    exact hv

theorem stripQuotesBody_no_newline {body : List Char} (hnl : '\n' ∉ body) :
    '\n' ∉ stripQuotesBody body ∧ rstripChars (stripQuotesBody body) = stripQuotesBody body := by
  have hsub : '\n' ∉ body.tail.dropLast := by
    intro hmem
    exact hnl (body.tail_sublist.subset (body.tail.dropLast_sublist.subset hmem))
  unfold stripQuotesBody
  by_cases h1 : quoteWrapped '"' body
  · rw [if_pos h1]
    exact ⟨fun hm => hsub (mem_rstripChars hm), rstripChars_idem _⟩
  · rw [if_neg h1]
    by_cases h2 : quoteWrapped '\'' body
    · rw [if_pos h2]
      exact ⟨fun hm => hsub (mem_rstripChars hm), rstripChars_idem _⟩
    · rw [if_neg h2]
      exact ⟨fun hm => hnl (mem_rstripChars hm), rstripChars_idem _⟩

theorem strip_quotes_shape {v w : List Char} (h : _strip_quotes v = some w) :
    '\n' ∉ w ∧ rstripChars w = w := by
  unfold _strip_quotes at h
  cases hb : regexBody v with
  | none => rw [hb] at h; cases h
  | some body =>
    rw [hb, Option.map_some'] at h
    have hnl : '\n' ∉ body := regexBody_no_newline hb
    cases h
    exact stripQuotesBody_no_newline hnl

/-- C7 (amended): de-quoting is idempotent on every value whose de-quoted
result is not itself wrapped in matching single or double quotes: if
`_strip_quotes v = some w` and `w` does not again start and end with the
same quote character, then `_strip_quotes w = some w`. -/
theorem c7_strip_quotes_idem_cond (v w : List Char) (h : _strip_quotes v = some w)
    (hq1 : ¬ quoteWrapped '"' w) (hq2 : ¬ quoteWrapped '\'' w) :
    _strip_quotes w = some w := by
  obtain ⟨hnl, hr⟩ := strip_quotes_shape h
  unfold _strip_quotes regexBody
  rw [if_neg hnl, Option.map_some']
  unfold stripQuotesBody
  rw [if_neg hq1, if_neg hq2, hr]

/-- C7 counterexample: the claim "applying `_strip_quotes` to the result of
`_strip_quotes` returns that result unchanged" fails at the value `"'a'"`
(a single-quoted word wrapped in double quotes): the first application
yields `'a'`, the second strips again and yields `a`. -/
theorem c7_strip_quotes_not_idem_cex :
    _strip_quotes ("\"'a'\"".data) = some ("'a'".data) ∧
    _strip_quotes ("'a'".data) = some ("a".data) ∧
    some ("a".data) ≠ some ("'a'".data) := by
  refine ⟨by decide, by decide, by decide⟩

/-- C7 witness: the conditional idempotence applies, for instance, to the
plainly quoted value `"esp32"`. -/
theorem c7_strip_quotes_idem_cond_witness :
    _strip_quotes ("\"esp32\"".data) = some ("esp32".data) ∧
    _strip_quotes ("esp32".data) = some ("esp32".data) :=
  ⟨by decide, c7_strip_quotes_idem_cond ("\"esp32\"".data) ("esp32".data)
    (by decide) (by decide) (by decide)⟩

theorem entryCheck_false_iff (cache : List (List Char × List Char)) (e : List Char) :
    entryCheck cache e = some false ↔ entryOk cache e := by
  unfold entryCheck entryOk
  split
  · next hs => simp [hs]
  · next k v hs =>
    split
    · next hc => simp [hs, hc]
    · next cur hc =>
      by_cases hq : _strip_quotes v = some cur
      · rw [if_neg (by simpa using hq)]
        constructor
        · intro _
          exact ⟨k, v, cur, hs, hc, hq⟩
        · intro _
          rfl
      · rw [if_pos (by simpa using hq)]
        constructor
        · intro h
          cases h
        · rintro ⟨k', v', cur', hs', hc', hq'⟩
          rw [hs] at hs'
          simp only [Option.some.injEq, Prod.mk.injEq] at hs'
          obtain ⟨rfl, rfl⟩ := hs'
          rw [hc] at hc'
          cases hc'
          exact absurd hq' hq

theorem checkEntries_false_iff (cache : List (List Char × List Char)) :
    ∀ entries : List (List Char),
      checkEntries cache entries = some false ↔ ∀ e ∈ entries, entryOk cache e := by
  intro entries
  induction entries with
  | nil => simp [checkEntries]
  | cons e rest ih =>
    rw [show checkEntries cache (e :: rest) =
        (match entryCheck cache e with
         | none => none
         | some true => some true
         | some false => checkEntries cache rest) from rfl]
    rw [List.forall_mem_cons]
    split
    · next hec =>
      constructor
      · intro h
        cases h
      · rintro ⟨hok, _⟩
        rw [(entryCheck_false_iff cache e).mpr hok] at hec
        cases hec
    · next hec =>
      constructor
      · intro h
        cases h
      · rintro ⟨hok, _⟩
        rw [(entryCheck_false_iff cache e).mpr hok] at hec
        cases hec
    · next hec =>
      constructor
      · intro hr
        exact ⟨(entryCheck_false_iff cache e).mp hec, ih.mp hr⟩
      · rintro ⟨_, hr⟩
        exact ih.mpr hr

/-- C1 (amended): for an existing cache file, `_new_cmakecache_entries`
returns `false` if and only if every proposed entry splits into KEY=VALUE
and KEY is present in the parsed snapshot with a stored value equal to the
de-quoted proposed value — only the proposed value is de-quoted; the stored
value is compared exactly as parsed (raw). -/
theorem c1_would_change_iff (content : List Char) (entries : List (List Char)) :
    _new_cmakecache_entries true content entries = some false ↔
      ∀ e ∈ entries, entryOk (_parse_cmakecache content) e := by
  rw [_new_cmakecache_entries]
  rw [if_neg (by simp)]
  exact checkEntries_false_iff _ entries

/-- C1 counterexample: for the existing cache file `K:STRING="a"` and the
single proposed entry `K="a"`, the proposed key is present and both the
proposed and the stored value de-quote to `a` (they are even textually
identical), yet `_new_cmakecache_entries` reports a change, because the code
de-quotes only the proposed side and compares it to the raw stored value
`"a"` (quotes included). -/
theorem c1_dequote_asymmetry_cex :
    _new_cmakecache_entries true ("K:STRING=\"a\"\n".data) ["K=\"a\"".data] = some true ∧
    cacheGet (_parse_cmakecache ("K:STRING=\"a\"\n".data)) ("K".data) = some ("\"a\"".data) ∧
    splitOnceEq ("K=\"a\"".data) = some (("K".data), ("\"a\"".data)) ∧
    _strip_quotes ("\"a\"".data) = some ("a".data) := by
  refine ⟨by decide, by decide, by decide, by decide⟩

/-- C1 witness: the amended equivalence applied to a concrete snapshot with
one agreeing entry. -/
theorem c1_would_change_iff_witness :
    _new_cmakecache_entries true ("K:STRING=a\n".data) ["K=a".data] = some false :=
  (c1_would_change_iff ("K:STRING=a\n".data) ["K=a".data]).mpr (by
    intro e he
    rw [List.mem_singleton] at he
    subst he
    exact ⟨"K".data, "a".data, "a".data, by decide, by decide, by decide⟩)

theorem lineValueTail_getLast {r v : List Char} (h : lineValueTail r = some v) :
    r.getLast? = some '\n' := by
  unfold lineValueTail at h
  split at h
  · next hg => exact hg
  · next => exact Option.noConfusion h

/-- C10: the cache parser records only lines that end with a newline
character and whose name part consists of characters outside `#/:=`; in
particular a final `NAME:TYPE=VALUE` line with no trailing newline is
silently omitted, so `_new_cmakecache_entries` reports a change for a
proposed entry whose key is textually present on such a final line. -/
theorem c10_parse_requires_newline :
    (∀ line k v, cacheLineEntry line = some (k, v) →
      line.getLast? = some '\n' ∧ ∀ c ∈ k, nameCharOk c = true) ∧
    _parse_cmakecache ("FOO:STRING=bar".data) = [] ∧
    _new_cmakecache_entries true ("FOO:STRING=bar".data) ["FOO=bar".data] = some true := by
  refine ⟨?_, by decide, by decide⟩
  intro line k v h
  unfold cacheLineEntry at h
  split at h
  · next rest2 heq1 =>
    split at h
    · next => exact Option.noConfusion h
    · next =>
      split at h
      · next rest4 heq2 =>
        split at h
        · next => exact Option.noConfusion h
        · next =>
          split at h
          · next v' hval =>
            simp only [Option.some.injEq, Prod.mk.injEq] at h
            obtain ⟨rfl, rfl⟩ := h
            have hl4 : rest4.getLast? = some '\n' := lineValueTail_getLast hval
            have h4ne : rest4 ≠ [] := by
              intro hh
              rw [hh] at hl4
              exact Option.noConfusion hl4
            have e1 : line.takeWhile nameCharOk ++ (':' :: rest2) = line := by
              rw [← heq1, List.takeWhile_append_dropWhile]
            have e2 : rest2.takeWhile typeCharOk ++ ('=' :: rest4) = rest2 := by
              rw [← heq2, List.takeWhile_append_dropWhile]
            constructor
            · calc line.getLast?
                  = (line.takeWhile nameCharOk ++ (':' :: rest2)).getLast? := by rw [e1]
                _ = ((([':'] : List Char)) ++ rest2).getLast? :=
                    List.getLast?_append_of_ne_nil _ (by simp)
                _ = rest2.getLast? :=
                    List.getLast?_append_of_ne_nil _ (by rw [← e2]; simp)
                _ = (rest2.takeWhile typeCharOk ++ ('=' :: rest4)).getLast? := by rw [e2]
                _ = (((['='] : List Char)) ++ rest4).getLast? :=
                    List.getLast?_append_of_ne_nil _ (by simp)
                _ = rest4.getLast? := List.getLast?_append_of_ne_nil _ h4ne
                _ = some '\n' := hl4
            · intro c hc
              exact List.mem_takeWhile_imp hc
          · next => exact Option.noConfusion h
      · next => exact Option.noConfusion h
  · next => exact Option.noConfusion h

/-- C10 witness: the line characterisation applied to the concrete matching
line `A:B=c` with a trailing newline. -/
theorem c10_parse_requires_newline_witness :
    ("A:B=c\n".data).getLast? = some '\n' ∧ ∀ c ∈ ("A".data), nameCharOk c = true :=
  c10_parse_requires_newline.1 ("A:B=c\n".data) ("A".data) ("c".data) (by decide)

/-- C3: whenever the configure step propagates an exception, the persisted
cache file does not exist afterwards (the `except` clause deletes it before
re-raising), whatever the cmake run did to it; and an absent cache file makes
`_new_cmakecache_entries` report `true` unconditionally, so the next run
reconfigures. -/
theorem c3_configure_failure_removes_cache :
    (∀ runRaises cacheExistsAfterRun : Bool,
      (configure_step runRaises cacheExistsAfterRun).2 = true →
      (configure_step runRaises cacheExistsAfterRun).1 = false) ∧
    ∀ (content : List Char) (entries : List (List Char)),
      _new_cmakecache_entries false content entries = some true := by
  constructor
  · intro r c h
    cases r with
    | false => simp [configure_step] at h
    | true => simp [configure_step]
  · intro content entries
    rfl

/-- C3 witness: a raising configure run over an existing, fully written cache
file still ends with the cache file absent, and the missing cache forces the
change check to `true`. -/
theorem c3_configure_failure_removes_cache_witness :
    (configure_step true true).2 = true ∧ (configure_step true true).1 = false ∧
    _new_cmakecache_entries false [] [] = some true :=
  ⟨by decide, c3_configure_failure_removes_cache.1 true true (by decide),
    c3_configure_failure_removes_cache.2 [] []⟩

/-- C4: a non-zero exit with a custom failure handler makes `RunTool.__call__`
invoke exactly that handler with the exit code and the two log paths, run no
hint scan, and return without raising. -/
theorem c4_custom_handler (returncode : Int) (hasCustomHandler : Bool)
    (stderrLog stdoutLog : Option (List Char))
    (hrc : returncode ≠ 0) (hch : hasCustomHandler = true) :
    run_tool_finish returncode hasCustomHandler stderrLog stdoutLog =
      RunToolOutcome.customHandled returncode stderrLog stdoutLog ∧
    outcomeScansHints (run_tool_finish returncode hasCustomHandler stderrLog stdoutLog) = false ∧
    outcomeRaises (run_tool_finish returncode hasCustomHandler stderrLog stdoutLog) = false := by
  unfold run_tool_finish
  rw [if_neg hrc, if_pos hch]
  exact ⟨rfl, rfl, rfl⟩

/-- C4 witness: exit code 2 with a custom handler and both logs captured. -/
theorem c4_custom_handler_witness :
    run_tool_finish 2 true (some ("e".data)) (some ("o".data)) =
      RunToolOutcome.customHandled 2 (some ("e".data)) (some ("o".data)) ∧
    outcomeScansHints (run_tool_finish 2 true (some ("e".data)) (some ("o".data))) = false ∧
    outcomeRaises (run_tool_finish 2 true (some ("e".data)) (some ("o".data))) = false :=
  c4_custom_handler 2 true (some ("e".data)) (some ("o".data)) (by decide) rfl

/-- C9: `fit_text_in_terminal` never returns more characters than the given
terminal width; a width of at most 3 gives exactly that many dots, an input
strictly shorter than a wider terminal is returned unchanged, and a too-long
input is middle-elided to length `2 * ((width - 3) / 2) + 3 ≤ width`. -/
theorem c9_fit_text_bounds (out : List Char) (w : Nat) :
    (fit_text_in_terminal out w).length ≤ w ∧
    (w ≤ 3 → fit_text_in_terminal out w = List.replicate w '.') ∧
    (3 < w → out.length < w → fit_text_in_terminal out w = out) ∧
    (3 < w → w ≤ out.length →
      (fit_text_in_terminal out w).length = 2 * ((w - 3) / 2) + 3) := by
  by_cases h1 : w ≤ 3
  · unfold fit_text_in_terminal
    rw [if_pos h1]
    refine ⟨by simp, fun _ => rfl, fun h _ => absurd h1 (by omega), fun h _ => absurd h1 (by omega)⟩
  · by_cases h2 : w ≤ out.length
    · unfold fit_text_in_terminal
      rw [if_neg h1, if_pos h2]
      have he : (w - 3) / 2 ≤ out.length := by
        have := Nat.div_le_self (w - 3) 2
        omega
      have hlen : (out.take ((w - 3) / 2) ++ ('.' :: '.' :: ['.']) ++
          out.drop (out.length - (w - 3) / 2)).length = 2 * ((w - 3) / 2) + 3 := by
        simp [List.length_take, List.length_drop]
        omega
      refine ⟨?_, fun h => absurd h h1, fun _ h => absurd h (by omega), fun _ _ => hlen⟩
      rw [hlen]
      have := Nat.div_mul_le_self (w - 3) 2
      omega
    · unfold fit_text_in_terminal
      rw [if_neg h1, if_neg h2]
      exact ⟨by omega, fun h => absurd h h1, fun _ _ => rfl, fun _ h => absurd h h2⟩

/-- C9 witness: a 20-character text on a 10-column terminal is elided to
9 characters; a 5-character text on the same terminal is unchanged. -/
theorem c9_fit_text_bounds_witness :
    (fit_text_in_terminal ("abcdefghijklmnopqrst".data) 10).length = 2 * ((10 - 3) / 2) + 3 ∧
    fit_text_in_terminal ("abcde".data) 10 = "abcde".data :=
  ⟨(c9_fit_text_bounds ("abcdefghijklmnopqrst".data) 10).2.2.2 (by decide) (by decide),
    (c9_fit_text_bounds ("abcde".data) 10).2.2.1 (by decide) (by decide)⟩

theorem cacheGet_nil (k : List Char) : cacheGet [] k = none := rfl

/-- C2: one call of the target resolver raises at most one conflict (it is a
function into `TargetOutcome`, whose conflict alternatives are mutually
exclusive), and when several documented rules are violated the surfaced
conflict is the first violated rule in the documented order: environment vs
project configuration, then environment vs persisted cache, then persisted
cache vs project configuration; when no rule is violated no conflict is
raised. -/
theorem c2_conflict_order (fromSdkconfig fromSdkconfigDefaults fromEnv : Option (List Char))
    (cache : List (List Char × List Char)) (entries : List (List Char)) :
    (envSdkconfigConflict fromSdkconfig fromEnv →
      _guess_or_check_idf_target fromSdkconfig fromSdkconfigDefaults fromEnv cache entries =
        TargetOutcome.conflictEnvSdkconfig (fromSdkconfig.getD []) (fromEnv.getD [])) ∧
    (¬ envSdkconfigConflict fromSdkconfig fromEnv →
      envCacheConflict fromEnv (cacheGet cache idfTargetKey) →
      _guess_or_check_idf_target fromSdkconfig fromSdkconfigDefaults fromEnv cache entries =
        TargetOutcome.conflictEnvCache (fromEnv.getD []) ((cacheGet cache idfTargetKey).getD [])) ∧
    (¬ envSdkconfigConflict fromSdkconfig fromEnv →
      ¬ envCacheConflict fromEnv (cacheGet cache idfTargetKey) →
      cacheSdkconfigConflict fromSdkconfig (cacheGet cache idfTargetKey) →
      _guess_or_check_idf_target fromSdkconfig fromSdkconfigDefaults fromEnv cache entries =
        TargetOutcome.conflictCacheSdkconfig (fromSdkconfig.getD [])
          ((cacheGet cache idfTargetKey).getD [])) ∧
    (¬ envSdkconfigConflict fromSdkconfig fromEnv →
      ¬ envCacheConflict fromEnv (cacheGet cache idfTargetKey) →
      ¬ cacheSdkconfigConflict fromSdkconfig (cacheGet cache idfTargetKey) →
      ∃ es, _guess_or_check_idf_target fromSdkconfig fromSdkconfigDefaults fromEnv cache entries =
        TargetOutcome.ok es) := by
  simp only [envSdkconfigConflict, envCacheConflict, cacheSdkconfigConflict]
  refine ⟨?_, ?_, ?_, ?_⟩
  · rintro ⟨hE, hS, hne⟩
    unfold _guess_or_check_idf_target
    rw [if_neg (by rintro ⟨_, hf⟩; rw [hE] at hf; cases hf), if_pos hE, if_pos ⟨hS, hne⟩]
  · rintro hA ⟨hE, hC, hne⟩
    unfold _guess_or_check_idf_target
    rw [if_neg (by rintro ⟨_, hf⟩; rw [hE] at hf; cases hf), if_pos hE,
      if_neg (fun h => hA ⟨hE, h.1, h.2⟩), if_pos ⟨hC, hne⟩]
  · rintro hA hB ⟨hC, hS, hne⟩
    have hE : pyTruthyOpt fromEnv = false := by
      cases hEc : pyTruthyOpt fromEnv with
      | false => rfl
      | true =>
        have h1 : fromSdkconfig = fromEnv := by
          by_contra hne1
          exact hA ⟨hEc, hS, hne1⟩
        have h2 : cacheGet cache idfTargetKey = fromEnv := by
          by_contra hne2
          exact hB ⟨hEc, hC, hne2⟩
        exact absurd (h2.trans h1.symm) hne
    have hcne : ¬ (cache = [] ∧ pyTruthyOpt fromEnv = false) := by
      rintro ⟨hnil, _⟩
      rw [hnil, cacheGet_nil] at hC
      cases hC
    unfold _guess_or_check_idf_target
    rw [if_neg hcne, if_neg (by rw [hE]; simp), if_pos ⟨hC, hS, hne⟩]
  · rintro hA hB hC3
    by_cases h1 : cache = [] ∧ pyTruthyOpt fromEnv = false
    · unfold _guess_or_check_idf_target
      rw [if_pos h1]
      by_cases hg : pyTruthyOpt
          (if pyTruthyOpt fromSdkconfig = true then fromSdkconfig else fromSdkconfigDefaults) = true
      · rw [if_pos hg]
        exact ⟨_, rfl⟩
      · rw [if_neg hg]
        exact ⟨_, rfl⟩
    · by_cases hE : pyTruthyOpt fromEnv = true
      · unfold _guess_or_check_idf_target
        rw [if_neg h1, if_pos hE, if_neg (fun h => hA ⟨hE, h.1, h.2⟩),
          if_neg (fun h => hB ⟨hE, h.1, h.2⟩)]
        exact ⟨_, rfl⟩
      · unfold _guess_or_check_idf_target
        rw [if_neg h1, if_neg hE, if_neg hC3]
        exact ⟨_, rfl⟩

/-- C2 witness: with the environment set to `esp32`, the project
configuration declaring `esp32s2` and the cache recording `esp32s3`, all
three documented rules are violated and the surfaced conflict is the
environment vs project configuration one. -/
theorem c2_conflict_order_witness :
    _guess_or_check_idf_target (some ("esp32s2".data)) none (some ("esp32".data))
        [(idfTargetKey, "esp32s3".data)] [] =
      TargetOutcome.conflictEnvSdkconfig ("esp32s2".data) ("esp32".data) :=
  (c2_conflict_order (some ("esp32s2".data)) none (some ("esp32".data))
    [(idfTargetKey, "esp32s3".data)] []).1 (by refine ⟨rfl, rfl, by decide⟩)

/-- C8: with no persisted cache snapshot, a falsy environment target and a
target inferable from the project configuration (falling back to its
defaults variant), the resolver appends `IDF_TARGET=<inferred>` to the
proposed entries and raises no conflict; in particular a project
configuration declaring `esp32c3` makes the entries gain
`IDF_TARGET=esp32c3`. -/
theorem c8_guess_target :
    (∀ (fromSdkconfig fromSdkconfigDefaults fromEnv : Option (List Char))
        (entries : List (List Char)),
      pyTruthyOpt fromEnv = false →
      pyTruthyOpt (if pyTruthyOpt fromSdkconfig = true then fromSdkconfig
        else fromSdkconfigDefaults) = true →
      _guess_or_check_idf_target fromSdkconfig fromSdkconfigDefaults fromEnv [] entries =
        TargetOutcome.ok (entries ++ [("IDF_TARGET=".data) ++
          (if pyTruthyOpt fromSdkconfig = true then fromSdkconfig
            else fromSdkconfigDefaults).getD []])) ∧
    ∀ entries : List (List Char),
      _guess_or_check_idf_target (some ("esp32c3".data)) none none [] entries =
        TargetOutcome.ok (entries ++ ["IDF_TARGET=esp32c3".data]) := by
  constructor
  · intro fromSdkconfig fromSdkconfigDefaults fromEnv entries hE hg
    unfold _guess_or_check_idf_target
    rw [if_pos ⟨rfl, hE⟩, if_pos hg]
  · intro entries
    unfold _guess_or_check_idf_target
    rw [if_pos ⟨rfl, rfl⟩, if_pos (by decide)]
    have : ("IDF_TARGET=".data) ++
        ((if pyTruthyOpt (some ("esp32c3".data)) = true then some ("esp32c3".data)
          else none).getD []) = "IDF_TARGET=esp32c3".data := by decide
    rw [this]

/-- C8 witness: the general guess rule applied to the `esp32c3` scenario with
an initially empty proposed-entry list. -/
theorem c8_guess_target_witness :
    _guess_or_check_idf_target (some ("esp32c3".data)) none none [] [] =
      TargetOutcome.ok ([("IDF_TARGET=".data) ++
        (if pyTruthyOpt (some ("esp32c3".data)) = true then some ("esp32c3".data)
          else none).getD []]) :=
  c8_guess_target.1 (some ("esp32c3".data)) none none [] rfl (by decide)

theorem varSetOne_some_vsMatches {search : List Char → List Char → Option (List (List Char))}
    {output reTemplate : List Char} {hintTemplate : Option (List Char)} {vs : VarSet}
    {msg : List Char}
    (h : varSetOne search output reTemplate hintTemplate vs = Except.ok (some msg)) :
    vsMatches search output reTemplate vs = true := by
  cases hfmt : pyFormat reTemplate vs.re_variables with
  | none => simp [varSetOne, hfmt] at h
  | some regex =>
    by_cases hs : (search regex output).isSome = true
    · simp [vsMatches, hfmt, hs]
    · have hs2 : (search regex output).isSome = false := by simpa using hs
      simp [varSetOne, hfmt, hs2] at h

theorem varSetOne_none_vsMatches {search : List Char → List Char → Option (List (List Char))}
    {output reTemplate : List Char} {hintTemplate : Option (List Char)} {vs : VarSet}
    (h : varSetOne search output reTemplate hintTemplate vs = Except.ok none) :
    vsMatches search output reTemplate vs = false := by
  cases hfmt : pyFormat reTemplate vs.re_variables with
  | none => simp [vsMatches, hfmt]
  | some regex =>
    by_cases hs : (search regex output).isSome = true
    · cases hht : hintTemplate with
      | none => simp [varSetOne, hfmt, hs, hht] at h
      | some ht =>
        cases hmsg : pyFormat ht vs.hint_variables with
        | none => simp [varSetOne, hfmt, hs, hht, hmsg] at h
        | some m => simp [varSetOne, hfmt, hs, hht, hmsg] at h
    · have hs2 : (search regex output).isSome = false := by simpa using hs
      simp [vsMatches, hfmt, hs2]

theorem varSetMatchCount_cons (search : List Char → List Char → Option (List (List Char)))
    (output reTemplate : List Char) (vs : VarSet) (rest : List VarSet) :
    varSetMatchCount search output reTemplate (vs :: rest) =
      (if vsMatches search output reTemplate vs = true then 1 else 0) +
        varSetMatchCount search output reTemplate rest := by
  unfold varSetMatchCount
  rw [List.filter_cons]
  by_cases hm : vsMatches search output reTemplate vs = true
  · simp [hm, Nat.add_comm]
  · simp [hm]

theorem varSetHints_ok_length (search : List Char → List Char → Option (List (List Char)))
    (output reTemplate : List Char) (hintTemplate : Option (List Char)) :
    ∀ (vsets : List VarSet) (l : List (List Char)),
      varSetHints search output reTemplate hintTemplate vsets = Except.ok l →
      l.length = varSetMatchCount search output reTemplate vsets := by
  intro vsets
  induction vsets with
  | nil =>
    intro l h
    cases h
    rfl
  | cons vs rest ih =>
    intro l h
    rw [varSetMatchCount_cons]
    cases hone : varSetOne search output reTemplate hintTemplate vs with
    | error e => simp [varSetHints, hone] at h
    | ok result =>
      cases result with
      | none =>
        simp only [varSetHints, hone] at h
        rw [if_neg (by rw [varSetOne_none_vsMatches hone]; simp), ih l h]
        simp
      | some msg =>
        simp only [varSetHints, hone] at h
        cases hrec : varSetHints search output reTemplate hintTemplate rest with
        | error e =>
          rw [hrec] at h
          simp [Except.map] at h
        | ok lr =>
          rw [hrec] at h
          simp only [Except.map, Except.ok.injEq] at h
          subst h
          rw [if_pos (varSetOne_some_vsMatches hone), List.length_cons, ih lr hrec,
            Nat.add_comm]

theorem ruleHints_ok_length (search : List Char → List Char → Option (List (List Char)))
    (output : List Char) (rule : HintRule) :
    ∀ l, ruleHints search output rule = Except.ok l →
      l.length = ruleMatchCount search output rule := by
  intro l h
  unfold ruleHints at h
  unfold ruleMatchCount
  split at h
  · next hvars =>
    rw [if_pos hvars]
    split at h
    · next => cases h
    · next hintList hok =>
      cases h
      rw [List.length_map]
      exact varSetHints_ok_length search output rule.re rule.hint _ hintList hok
  · next hvars =>
    rw [if_neg hvars]
    split at h
    · next hsearch =>
      cases h
      simp [hsearch]
    · next groups hsearch =>
      split at h
      · next => cases h
      · next ht hht =>
        split at h
        · next => cases h
        · next m hm =>
          cases h
          simp [hsearch]

theorem rulesHints_ok_length (search : List Char → List Char → Option (List (List Char)))
    (output : List Char) :
    ∀ (rules : List HintRule) (l : List (List Char)),
      rulesHints search output rules = Except.ok l →
      l.length = (rules.map (ruleMatchCount search output)).sum := by
  intro rules
  induction rules with
  | nil =>
    intro l h
    cases h
    rfl
  | cons r rs ih =>
    intro l h
    unfold rulesHints at h
    split at h
    · next => cases h
    · next l1 h1 =>
      cases hrec : rulesHints search output rs with
      | error e =>
        rw [hrec] at h
        simp [Except.map] at h
      | ok l2 =>
        rw [hrec] at h
        simp only [Except.map, Except.ok.injEq] at h
        subst h
        simp [ruleHints_ok_length search output r l1 h1, ih l2 hrec]

/-- C5: whenever a `generate_hints` run completes (no malformed-rule abort),
the number of hint strings it yielded equals the number of matching
rule/variable-set pairs summed over all input files (a rule without a truthy
variable list counts one pair when its raw regex matches); in particular a
rule with zero matching variable sets and no unconditional match contributes
zero hints. -/
theorem c5_hint_count :
    (∀ (search : List Char → List Char → Option (List (List Char)))
        (rules : List HintRule) (files : List (List (List Char))) (hints : List (List Char)),
      generate_hints search rules files = Except.ok hints →
      hints.length = totalMatchCount search rules files) ∧
    (∀ (search : List Char → List Char → Option (List (List Char)))
        (output : List Char) (rule : HintRule) (l : List (List Char)),
      ruleMatchCount search output rule = 0 →
      ruleHints search output rule = Except.ok l → l = []) := by
  constructor
  · intro search rules files
    induction files with
    | nil =>
      intro hints h
      cases h
      rfl
    | cons f fs ih =>
      intro hints h
      unfold generate_hints at h
      split at h
      · next => cases h
      · next l1 h1 =>
        cases hrec : generate_hints search rules fs with
        | error e =>
          rw [hrec] at h
          simp [Except.map] at h
        | ok l2 =>
          rw [hrec] at h
          simp only [Except.map, Except.ok.injEq] at h
          subst h
          unfold totalMatchCount
          simp only [List.map_cons, List.sum_cons, List.length_append]
          rw [rulesHints_ok_length search (flattenOutput f) rules l1 h1, ih l2 hrec]
          rfl
  · intro search output rule l hc h
    have := ruleHints_ok_length search output rule l h
    rw [hc] at this
    exact List.eq_nil_of_length_eq_zero this

/-- C5 witness: a concrete run with two variable sets over two files, three
matches in total, applied to the counting theorem. -/
theorem c5_hint_count_witness :
    generate_hints reSearchLit [w5rule] w5files =
      Except.ok ["HINT: fix A".data, "HINT: fix B".data, "HINT: fix B".data] ∧
    (["HINT: fix A".data, "HINT: fix B".data, "HINT: fix B".data] : List (List Char)).length =
      totalMatchCount reSearchLit [w5rule] w5files :=
  ⟨by decide, c5_hint_count.1 reSearchLit [w5rule] w5files _ (by decide)⟩

/-- C6 (amended): the scenario rule yields exactly the hint
`HINT: Check linkage of foo symbol` on every log whose flattened content
contains ``undefined reference to `foo'`` — with a backtick before `foo`,
the shape the formatted regex actually requires — not the apostrophe-quoted
text the claim states. -/
theorem c6_backtick_scenario (lines : List (List Char))
    (h : containsSub c6pattern (flattenOutput lines) = true) :
    generate_hints reSearchLit [c6rule] [lines] = Except.ok [c6message] := by
  have h2 : reSearchLit c6pattern (flattenOutput lines) = some [] := by
    unfold reSearchLit
    rw [if_pos h]
  have h3 : varSetOne reSearchLit (flattenOutput lines) c6rule.re c6rule.hint c6vs =
      Except.ok (some ("Check linkage of foo symbol".data)) := by
    have h1 : pyFormat c6rule.re c6vs.re_variables = some c6pattern := by decide
    have h4 : pyFormat ("Check linkage of \x7b\x7d".data) c6vs.hint_variables =
        some ("Check linkage of foo symbol".data) := by decide
    have hh : c6rule.hint = some ("Check linkage of \x7b\x7d".data) := rfl
    simp only [varSetOne, h1, h2, hh, h4, Option.isSome_some, if_true]
  have hv : varSetHints reSearchLit (flattenOutput lines) c6rule.re c6rule.hint [c6vs] =
      Except.ok [("Check linkage of foo symbol".data)] := by
    simp [varSetHints, h3, Except.map]
  have hr : ruleHints reSearchLit (flattenOutput lines) c6rule = Except.ok [c6message] := by
    have hvars : pyTruthyVars c6rule.variables_list = true := by decide
    have hget : c6rule.variables_list.getD [] = [c6vs] := rfl
    unfold ruleHints
    rw [if_pos hvars, hget]
    simp only [hv]
    have : hintPrefix ++ ("Check linkage of foo symbol".data) = c6message := by decide
    simp [this]
  simp [generate_hints, rulesHints, hr, Except.map]

/-- C6 counterexample: on the log containing `undefined reference to 'foo'`
with apostrophes — the text the claim states — the run yields no hint at
all, because the rule's formatted regex demands a backtick before `foo`. -/
theorem c6_quote_mismatch_cex :
    generate_hints reSearchLit [c6rule] [[c6apostropheLog]] = Except.ok [] ∧
    containsSub ("undefined reference to 'foo'".data) (flattenOutput [c6apostropheLog]) = true ∧
    (Except.ok [] : Except HintErr (List (List Char))) ≠ Except.ok [c6message] := by
  refine ⟨by decide, by decide, ?_⟩
  intro hcontr
  rw [Except.ok.injEq] at hcontr
  cases hcontr

/-- C6 witness: the amended scenario on the exact backtick log line. -/
theorem c6_backtick_scenario_witness :
    generate_hints reSearchLit [c6rule] [["undefined reference to `foo'".data]] =
      Except.ok [c6message] :=
  c6_backtick_scenario [("undefined reference to `foo'".data)] (by decide)
